import Mathlib

/-!
Verification of the FTP transport plugin of vs-deploy (src/src/plugins/ftp.ts).

The development shallowly embeds the plugin's two engine variants
(`FtpClient` wrapping the node-ftp library, `JsFTPClient` wrapping jsftp),
the per-session context with its remote-directory cache and cancellation
flag, and the upload/download orchestration of `FtpPlugin`.

Asynchronous execution is modelled as a single cooperative flow: each
engine call or filesystem callback advances a logical clock by one tick,
and the session's `hasCancelled` flag is an arbitrary Boolean function of
that clock, read exactly at the program points where the source reads
`ctx.hasCancelled`.  Each orchestrator run produces a trace of externally
visible events (engine calls and host-hook invocations) together with the
updated directory cache and the completion outcome.
-/

namespace VsDeployFtp

/-- Byte buffers are modelled as lists of byte values. -/
abbrev Bytes := List Nat

/-- Errors carried by rejected promises (`TransportError`s); only the
message is modelled. -/
abbrev Err := String

/-- Decidable equality for promise results. -/
instance {ε α : Type} [DecidableEq ε] [DecidableEq α] :
    DecidableEq (Except ε α) := fun x y =>
  match x, y with
  | Except.ok a, Except.ok b =>
    if h : a = b then isTrue (by rw [h])
    else isFalse (fun hc => h (Except.ok.inj hc))
  | Except.ok _, Except.error _ => isFalse (fun hc => Except.noConfusion hc)
  | Except.error _, Except.ok _ => isFalse (fun hc => Except.noConfusion hc)
  | Except.error e, Except.error f =>
    if h : e = f then isTrue (by rw [h])
    else isFalse (fun hc => h (Except.error.inj hc))

/-! ### Path model

`ftp.ts` builds remote paths with Node's `Path.join` / `Path.dirname` and
then rewrites the platform separator to `/` via `toFTPPath`.  The host
platform is modelled as POSIX (`Path.sep = "/"`); `pathJoin` and
`pathDirname` model Node's behaviour on already-normalized inputs
(no `.`/`..` segments, no trailing separators). -/

/-- Platform path separator of the modelled host (POSIX). -/
def pathSepChar : Char := '/'

/-- Split a character list at every occurrence of a separator character
(the splitting underlying `String.splitOn`, restated structurally so
that it computes by reduction). -/
def splitOnChar (sep : Char) : List Char → List (List Char)
  | [] => [[]]
  | c :: cs =>
    let r := splitOnChar sep cs
    if c = sep then [] :: r
    else
      match r with
      | [] => [[c]]
      | h :: t => (c :: h) :: t

/-- Join character lists with a separator character (the structural
counterpart of `String.intercalate` for a one-character separator). -/
def joinWithChar (sep : Char) : List (List Char) → List Char
  | [] => []
  | [x] => x
  | x :: xs => x ++ sep :: joinWithChar sep xs

/-- Modelled from the spec: `deploy_helpers.replaceAllStrings` (helpers
module absent from `src/`) replaces every occurrence of a substring —
here specialised to a one-character pattern, which is all `toFTPPath`
needs (`Path.sep` is one character on every platform). -/
def replaceAllChar (s : String) (old : Char) (new : Char) : String :=
  ⟨joinWithChar new (splitOnChar old s.data)⟩

/-- `toFTPPath` from src/src/plugins/ftp.ts:67-69: replace the platform
separator by `/`. -/
def toFTPPath (path : String) : String :=
  replaceAllChar path pathSepChar '/'

/-- Modelled from Node's `path.join` on POSIX for inputs without dot
segments: concatenate with a single separator. -/
def pathJoin (a b : String) : String :=
  if a.data = [] then b
  else if b.data = [] then a
  else
    ⟨(if a.data.getLast? = some '/' then a.data.dropLast else a.data) ++
      '/' ::
        (if b.data.head? = some '/' then b.data.tail else b.data)⟩

/-- Modelled from Node's `path.dirname` on POSIX for inputs without
trailing separators: drop the last component; no separator yields `.`;
an empty remainder yields `/`. -/
def pathDirname (p : String) : String :=
  let parts := splitOnChar '/' p.data
  if parts.length ≤ 1 then "."
  else
    let init := joinWithChar '/' parts.dropLast
    if init = [] then "/" else ⟨init⟩

/-- `getDirFromTarget` from src/src/plugins/ftp.ts:58-65: the target's
`dir` coerced to a string, defaulting to `/` when empty or absent. -/
def getDirFromTarget (dir : Option String) : String :=
  let d := dir.getD ""
  if d = "" then "/" else d

/-! ### Remote file store and the two engines' `put`/`get` -/

/-- The remote server's file store: an association list from remote path
to stored bytes (later entries shadow earlier ones). -/
abbrev Store := List (String × Bytes)

/-- Look a remote file up in the store. -/
def storeGet (s : Store) (file : String) : Option Bytes :=
  (s.find? (fun e => e.1 = file)).map (fun e => e.2)

/-- Store bytes at a remote path, shadowing any previous content. -/
def storePut (s : Store) (file : String) (data : Bytes) : Store :=
  (file, data) :: s

/-- `FtpClient.put` (src/src/plugins/ftp.ts:321-345): a missing buffer is
normalized to `Buffer.alloc(0)`; the data is sent and echoed back on
success.  Returns the updated store and the echoed payload. -/
def ftpClientPut (s : Store) (file : String) (data : Option Bytes) :
    Store × Bytes :=
  let payload := data.getD []
  (storePut s file payload, payload)

/-- `JsFTPClient.put` (src/src/plugins/ftp.ts:526-550): structurally
identical to `FtpClient.put` — missing buffer normalized to empty, data
sent over the data channel and echoed back. -/
def jsftpClientPut (s : Store) (file : String) (data : Option Bytes) :
    Store × Bytes :=
  let payload := data.getD []
  (storePut s file payload, payload)

/-- `FtpClient.get` (src/src/plugins/ftp.ts:226-297): the download stream
is piped into a disposable staging file which is then read back into
memory; on success the bytes read equal the bytes stored remotely (the
staging round-trip is content-preserving), and the staging file is
removed on every path.  A missing remote file surfaces as a rejected
promise. -/
def ftpClientGet (s : Store) (file : String) : Except Err Bytes :=
  match storeGet s file with
  | some bs => Except.ok bs
  | none => Except.error "no such file"

/-- Chunk accumulation of `JsFTPClient.get`
(src/src/plugins/ftp.ts:468-479): starting from `Buffer.alloc(0)`, each
arriving chunk is appended; a `null` chunk is skipped (`if (data)`). -/
def jsChunksToBuffer (chunks : List (Option Bytes)) : Bytes :=
  chunks.foldl (fun acc c => acc ++ c.getD []) []

/-- `JsFTPClient.get` (src/src/plugins/ftp.ts:455-502): the data socket
delivers the remote content as a sequence of chunks (`chunks`), which are
accumulated in memory; on a clean close the accumulated buffer resolves
the promise.  A missing remote file surfaces as a rejected promise. -/
def jsftpClientGet (s : Store) (file : String) (chunks : List (Option Bytes)) :
    Except Err Bytes :=
  match storeGet s file with
  | some _ => Except.ok (jsChunksToBuffer chunks)
  | none => Except.error "no such file"

/-! ### The two engines' `mkdir` -/

/-- The set of directories existing on the remote server. -/
abbrev DirSet := List String

/-- The list of absolute ancestor paths of an absolute directory,
innermost last: `"/a/b"` yields `["/a", "/a/b"]`. -/
def ancestorsOf (dir : String) : List String :=
  let comps := (splitOnChar '/' dir.data).filter (fun c => c ≠ [])
  (List.range comps.length).map
    (fun i => ⟨'/' :: joinWithChar '/' (comps.take (i + 1))⟩)

/-- The parent path of an absolute directory (`"/"` for a top-level
directory). -/
def parentDirOf (dir : String) : String :=
  pathDirname dir

/-- Whether a directory exists in the remote set (the root `/` always
exists). -/
def dirExists (st : DirSet) (dir : String) : Bool :=
  dir = "/" || st.contains dir

/-- Modelled from the node-ftp library contract invoked at
src/src/plugins/ftp.ts:306: `mkdir(dir, true, cb)` with the recursive
flag creates `dir` together with every missing ancestor; `allow` models
the server refusing creation, which rejects the promise. -/
def nodeFtpMkdirRecursive (allow : Bool) (st : DirSet) (dir : String) :
    DirSet × Except Err Unit :=
  if allow then (ancestorsOf dir ++ st, Except.ok ())
  else (st, Except.error "mkdir refused")

/-- Modelled from the jsftp library / RFC 959 contract invoked at
src/src/plugins/ftp.ts:511: `raw.mkd(dir, cb)` issues a single `MKD`
command, which creates only the named directory and fails when its
parent does not exist; `allow` models the server refusing creation. -/
def jsftpRawMkd (allow : Bool) (st : DirSet) (dir : String) :
    DirSet × Except Err Unit :=
  if allow && dirExists st (parentDirOf dir) then
    (dir :: st, Except.ok ())
  else (st, Except.error "mkd failed")

/-- `FtpClient.mkdir` (src/src/plugins/ftp.ts:299-319): invoke the
library's recursive mkdir; resolve with `dir` on success, reject with
the error otherwise. -/
def ftpClientMkdir (allow : Bool) (st : DirSet) (dir : String) :
    DirSet × Except Err String :=
  let (st', r) := nodeFtpMkdirRecursive allow st dir
  match r with
  | Except.ok _ => (st', Except.ok dir)
  | Except.error e => (st', Except.error e)

/-- `JsFTPClient.mkdir` (src/src/plugins/ftp.ts:504-524): invoke the raw
`MKD` command; resolve with `dir` on success, reject with the error
otherwise. -/
def jsftpClientMkdir (allow : Bool) (st : DirSet) (dir : String) :
    DirSet × Except Err String :=
  let (st', r) := jsftpRawMkd allow st dir
  match r with
  | Except.ok _ => (st', Except.ok dir)
  | Except.error e => (st', Except.error e)

/-! ### The two engines' `connect` -/

/-- What the FTP server does when a fresh connection is attempted:
either it completes the handshake (`ready`) or it fails with an
authentication / network error. -/
inductive ConnectOutcome
  | ready
  | failure (msg : Err)
deriving DecidableEq, Repr

/-- Connection state of one engine instance: `some id` when the
`_connection` field holds a live client object. -/
structure ConnState where
  connection : Option Nat
deriving DecidableEq, Repr

/-- `FtpClient.connect` (src/src/plugins/ftp.ts:88-173).  When
`me.connection` is already set, `completed(null, false)` runs with the
local `conn` still undefined, so `me._connection` is overwritten with
`undefined` and the promise resolves `false`.  Otherwise a client is
created: the `ready` event stores the connection and resolves `true`;
the `error` event rejects (the event payload is a Node `Error`, modelled
as always truthy). -/
def ftpClientConnect (st : ConnState) (server : ConnectOutcome) :
    ConnState × Except Err Bool :=
  match st.connection with
  | some _ => (⟨none⟩, Except.ok false)
  | none =>
    match server with
    | ConnectOutcome.ready => (⟨some 1⟩, Except.ok true)
    | ConnectOutcome.failure e => (st, Except.error e)

/-- `JsFTPClient.connect` (src/src/plugins/ftp.ts:351-402).  When
already connected it behaves like `FtpClient.connect`'s first branch
(resolves `false`, clobbering `_connection` with the undefined local).
Otherwise it constructs the lazy jsftp client and immediately runs
`completed(null, true)`: the promise resolves `true` without any network
round-trip, regardless of whether the server would accept the
connection or the credentials. -/
def jsftpClientConnect (st : ConnState) (_server : ConnectOutcome) :
    ConnState × Except Err Bool :=
  match st.connection with
  | some _ => (⟨none⟩, Except.ok false)
  | none => (⟨some 1⟩, Except.ok true)

/-! ### Engine selection and session creation -/

/-- Lower-case one ASCII character (the alphabet engine selectors are
drawn from). -/
def lowerChar (c : Char) : Char :=
  if 65 ≤ c.toNat && c.toNat ≤ 90 then Char.ofNat (c.toNat + 32) else c

/-- Whether a character is whitespace for trimming purposes. -/
def isSpaceChar (c : Char) : Bool :=
  c == ' ' || c == '\t' || c == '\n' || c == '\r'

/-- Drop leading and trailing whitespace from a character list. -/
def trimChars (cs : List Char) : List Char :=
  ((cs.dropWhile isSpaceChar).reverse.dropWhile isSpaceChar).reverse

/-- Modelled from the spec: `deploy_helpers.normalizeString` (helpers
module absent from `src/`) coerces to a string, lower-cases and trims. -/
def normalizeString (s : Option String) : String :=
  ⟨trimChars ((s.getD "").data.map lowerChar)⟩

/-- The two engine variants. -/
inductive EngineKind
  | ftp
  | jsftp
deriving DecidableEq, Repr

/-- Engine selection inside `FtpPlugin.createContext`
(src/src/plugins/ftp.ts:602-613): the normalized selector `''` or
`'ftp'` chooses `FtpClient`, `'jsftp'` chooses `JsFTPClient`, anything
else leaves the client unset. -/
def selectEngine (engine : Option String) : Option EngineKind :=
  let e := normalizeString engine
  if e = "" then some EngineKind.ftp
  else if e = "ftp" then some EngineKind.ftp
  else if e = "jsftp" then some EngineKind.jsftp
  else none

/-- `FtpPlugin.createContext` (src/src/plugins/ftp.ts:558-626), reduced
to its fallible skeleton: select the engine from the normalized
selector; with no recognized engine, fail with `Unknown engine` without
connecting; otherwise connect, failing when `connect` rejects, and
deliver the context's engine on success. -/
def createContext (engine : Option String) (connectRes : Except Err Unit) :
    Except Err EngineKind :=
  match selectEngine engine with
  | none => Except.error "Unknown engine"
  | some k =>
    match connectRes with
    | Except.ok _ => Except.ok k
    | Except.error e => Except.error e

/-! ### Session teardown -/

/-- Observable session state for teardown: whether the context still
holds its directory cache, and whether the engine connection is open. -/
structure SessionState where
  cache : Option (List String)
  connOpen : Bool
deriving DecidableEq, Repr

/-- `wrapper.destroy` (src/src/plugins/ftp.ts:585-595): first
`delete ctx.cachedRemoteDirectories` removes the cache, then
`conn.end()` runs; its resolution resolves the destroy promise and its
rejection propagates — with the cache already deleted either way. -/
def wrapperDestroy (st : SessionState) (endRes : Except Err Unit) :
    SessionState × Except Err Unit :=
  let st1 : SessionState := { st with cache := none }
  match endRes with
  | Except.ok _ => ({ st1 with connOpen := false }, Except.ok ())
  | Except.error e => (st1, Except.error e)

/-! ### Orchestrator model

`FtpPlugin.deployFileWithContext` and `FtpPlugin.downloadFileWithContext`
are embedded as deterministic functions from a per-file environment (the
results the external world returns for each resolver, filesystem and
engine call) to a trace of externally visible events.  A logical clock
starts at `0` when the file's processing starts and advances by one at
every asynchronous boundary (each awaited engine call and each
`FS.readFile` callback); `cancel t` is the value of `ctx.hasCancelled`
at tick `t`, read exactly where the source reads it. -/

/-- Externally visible events of one orchestrator run. -/
inductive Event
  | cwdCall (dir : String)
  | mkdirCall (dir : String)
  | putCall (file : String)
  | getCall (file : String)
  | beforeDeploy (destination file : String)
  | completedHook (file : String) (canceled : Bool) (error : Option Err)
deriving DecidableEq, Repr

/-- The completion outcome delivered through `opts.onCompleted`. -/
structure Outcome where
  file : String
  canceled : Bool
  error : Option Err
deriving DecidableEq, Repr

/-- Result of a promise-returning engine call whose rejection reason is
inspected: `cwd`'s `.catch` handler distinguishes a truthy reason (try
`mkdir`) from a falsy one (proceed as if the directory existed). -/
inductive PRes
  | ok
  | errFalsy
  | err (msg : Err)
deriving DecidableEq, Repr

/-- Per-file environment for an upload: what the external collaborators
answer when (and if) each call is made. -/
structure FileEnv where
  /-- Result of `deploy_helpers.toRelativeTargetPath` — the external
  relative-path resolver: `none` models the `false` "cannot resolve"
  signal. -/
  resolved : Option String
  /-- Result of `ctx.connection.cwd(targetDirectory)` if invoked. -/
  cwdRes : PRes
  /-- Result of `ctx.connection.mkdir(targetDirectory)` if invoked
  (`none` = fulfilled). -/
  mkdirRes : Option Err
  /-- Result of `FS.readFile(file)` if invoked. -/
  readRes : Except Err Bytes
  /-- Result of `ctx.connection.put(targetFile, data)` if invoked
  (`none` = fulfilled). -/
  putRes : Option Err
deriving Repr

/-- Result of one `deployFileWithContext` run. -/
structure DeployResult where
  events : List Event
  /-- `ctx.cachedRemoteDirectories` after the run. -/
  cache : List String
  outcome : Outcome
  /-- Clock tick at which `completed` ran (where `ctx.hasCancelled` is
  read for the outcome's `canceled` field). -/
  doneAt : Nat
deriving Repr

/-- The remote file path computed for a resolved relative path
(src/src/plugins/ftp.ts:653-655). -/
def targetFileOf (dir : Option String) (rel : String) : String :=
  toFTPPath (pathJoin (getDirFromTarget dir) rel)

/-- The remote parent directory computed for a resolved relative path
(src/src/plugins/ftp.ts:656). -/
def targetDirOf (dir : Option String) (rel : String) : String :=
  toFTPPath (pathDirname (targetFileOf dir rel))

/-- `FtpPlugin.deployFileWithContext` (src/src/plugins/ftp.ts:628-728).
Control flow, in source order: a `completed` helper that fires
`onCompleted` with `canceled` read from `ctx.hasCancelled` at call time;
the entry cancellation check; relative-path resolution (error outcome on
failure); computation of `targetFile`/`targetDirectory`; the
`onBeforeDeploy` hook; then either the cached fast path or
`cwd`-probe-then-`mkdir`; finally `uploadFile`, which re-checks
cancellation, inserts the directory into the cache when requested, reads
the local file, re-checks cancellation, and issues `put`. -/
def deployFile (dir : Option String) (file : String) (cache : List String)
    (env : FileEnv) (cancel : Nat → Bool) : DeployResult :=
  let completed : Nat → Option Err → List String → List Event → DeployResult :=
    fun t err cacheNow evs =>
      { events := evs ++ [Event.completedHook file (cancel t) err]
        cache := cacheNow
        outcome := ⟨file, cancel t, err⟩
        doneAt := t }
  if cancel 0 then completed 0 none cache []
  else
    match env.resolved with
    | none => completed 0 (some "could not resolve relative path") cache []
    | some rel =>
      let targetFile := targetFileOf dir rel
      let targetDirectory := targetDirOf dir rel
      let uploadFile : Nat → Bool → List Event → DeployResult :=
        fun t initDirCache evs =>
          if cancel t then completed t none cache evs
          else
            let cacheNow :=
              if initDirCache then targetDirectory :: cache else cache
            match env.readRes with
            | Except.error e => completed (t + 1) (some e) cacheNow evs
            | Except.ok _ =>
              if cancel (t + 1) then completed (t + 1) none cacheNow evs
              else
                match env.putRes with
                | some e =>
                  completed (t + 2) (some e) cacheNow
                    (evs ++ [Event.putCall targetFile])
                | none =>
                  completed (t + 2) none cacheNow
                    (evs ++ [Event.putCall targetFile])
      let evs0 := [Event.beforeDeploy targetDirectory file]
      if targetDirectory ∈ cache then uploadFile 0 false evs0
      else
        let evs1 := evs0 ++ [Event.cwdCall targetDirectory]
        match env.cwdRes with
        | PRes.ok =>
          if cancel 1 then completed 1 none cache evs1
          else uploadFile 1 true evs1
        | PRes.errFalsy =>
          if cancel 1 then completed 1 none cache evs1
          else uploadFile 1 true evs1
        | PRes.err _ =>
          if cancel 1 then completed 1 none cache evs1
          else
            match env.mkdirRes with
            | none =>
              uploadFile 2 true (evs1 ++ [Event.mkdirCall targetDirectory])
            | some e =>
              completed 2 (some e) cache
                (evs1 ++ [Event.mkdirCall targetDirectory])

/-- Per-file environment for a download. -/
structure DownloadEnv where
  /-- Result of the external relative-path resolver. -/
  resolved : Option String
  /-- Result of `ctx.connection.get(targetFile)` if invoked. -/
  getRes : Except Err Bytes
deriving Repr

/-- Result of one `downloadFileWithContext` run: the event trace, the
outcome delivered to `onCompleted`, the promise's own result (`ok none`
models resolving with the undefined `data` of the cancellation branch),
and the completion tick. -/
structure DownloadResult where
  events : List Event
  outcome : Outcome
  value : Except Err (Option Bytes)
  doneAt : Nat
deriving Repr

/-- `FtpPlugin.downloadFileWithContext` (src/src/plugins/ftp.ts:730-789).
In source order: a guarded `completed` that fires `onCompleted` (with
`canceled` read at call time) and then settles the promise; the entry
cancellation check (resolving with undefined data); relative-path
resolution (error outcome on failure); the `onBeforeDeploy` hook; then
`get`, resolving with the downloaded buffer or rejecting. -/
def downloadFile (dir : Option String) (file : String) (env : DownloadEnv)
    (cancel : Nat → Bool) : DownloadResult :=
  let completed : Nat → Option Err → Option Bytes → List Event → DownloadResult :=
    fun t err data evs =>
      { events := evs ++ [Event.completedHook file (cancel t) err]
        outcome := ⟨file, cancel t, err⟩
        value := match err with
                 | some e => Except.error e
                 | none => Except.ok data
        doneAt := t }
  if cancel 0 then completed 0 none none []
  else
    match env.resolved with
    | none => completed 0 (some "could not resolve relative path") none []
    | some rel =>
      let targetFile := targetFileOf dir rel
      let targetDirectory := targetDirOf dir rel
      let evs0 := [Event.beforeDeploy targetDirectory file,
                   Event.getCall targetFile]
      match env.getRes with
      | Except.ok data => completed 1 none (some data) evs0
      | Except.error e => completed 1 (some e) none evs0

/-- One deployment session: fold `deployFile` over the batch, threading
`ctx.cachedRemoteDirectories` and the logical clock (each file's run
starts one tick after the previous file completed, against the same
monotone session clock). -/
def runSession (dir : Option String) (cancel : Nat → Bool) :
    List String → List (String × FileEnv) → Nat → List Event × List String
  | cache, [], _ => ([], cache)
  | cache, (file, env) :: rest, t0 =>
    let r := deployFile dir file cache env (fun t => cancel (t0 + t))
    let rest' := runSession dir cancel r.cache rest (t0 + r.doneAt + 1)
    (r.events ++ rest'.1, rest'.2)

/-- The session flag that is never raised. -/
def noCancel : Nat → Bool := fun _ => false

/-- The session's cancellation flag is monotone: once raised it never
reverts (`hasCancelled` only ever moves from `false` to `true`). -/
def CancelMonotone (cancel : Nat → Bool) : Prop :=
  ∀ s t : Nat, s ≤ t → cancel s = true → cancel t = true

/-- Count the occurrences of one event in a trace. -/
def countEvent (e : Event) (evs : List Event) : Nat :=
  (evs.filter (fun x => x = e)).length

/-- Count completion-hook events in a trace, whatever their payload. -/
def countCompleted (evs : List Event) : Nat :=
  (evs.filter (fun x =>
    match x with
    | Event.completedHook _ _ _ => true
    | _ => false)).length

/-- Whether a trace contains any engine (network) call. -/
def hasNetworkCall (evs : List Event) : Bool :=
  evs.any (fun x =>
    match x with
    | Event.cwdCall _ => true
    | Event.mkdirCall _ => true
    | Event.putCall _ => true
    | Event.getCall _ => true
    | _ => false)

/-- Whether a trace contains a directory-check call (`cwd` or `mkdir`)
for the given directory. -/
def hasDirCall (d : String) (evs : List Event) : Bool :=
  evs.any (fun x =>
    match x with
    | Event.cwdCall d' => d' = d
    | Event.mkdirCall d' => d' = d
    | _ => false)

/-- A file environment whose directory step succeeds: `cwd` fulfills (or
rejects with a falsy reason), or the `mkdir` fallback fulfills. -/
def dirStepOk (env : FileEnv) : Prop :=
  env.cwdRes = PRes.ok ∨ env.cwdRes = PRes.errFalsy ∨ env.mkdirRes = none

instance (env : FileEnv) : Decidable (dirStepOk env) := by
  unfold dirStepOk; infer_instance

/-- Environment of a file whose relative path cannot be resolved (all
calls after resolution would succeed, but are never reached). -/
def envUnresolved : FileEnv :=
  { resolved := none, cwdRes := PRes.ok, mkdirRes := none,
    readRes := Except.ok [], putRes := none }

/-- Environment of a file resolving to `x/a.txt` whose every external
call succeeds. -/
def envAllOk : FileEnv :=
  { resolved := some "x/a.txt", cwdRes := PRes.ok, mkdirRes := none,
    readRes := Except.ok [1, 2], putRes := none }

/-- Environment of a file resolving to `x/a.txt` whose `cwd` probe and
`mkdir` fallback both fail. -/
def envDirFail : FileEnv :=
  { resolved := some "x/a.txt", cwdRes := PRes.err "550 denied",
    mkdirRes := some "550 denied", readRes := Except.ok [1],
    putRes := none }

/-- Environment of a second file sharing the parent directory `/x`. -/
def envSameDir : FileEnv :=
  { resolved := some "x/b.txt", cwdRes := PRes.ok, mkdirRes := none,
    readRes := Except.ok [3], putRes := none }

/-- Download environment of a file resolving to `x/a.txt` whose `get`
succeeds. -/
def envDl : DownloadEnv :=
  { resolved := some "x/a.txt", getRes := Except.ok [9] }

/-! ## Theorems -/

section Theorems

/-- Counting an event distributes over trace concatenation. -/
theorem countEvent_append (e : Event) (a b : List Event) :
    countEvent e (a ++ b) = countEvent e a + countEvent e b := by
  simp [countEvent, List.filter_append]

/-- C1: for both engine variants, against the remote-store model,
`put(path, bytes)` followed by `get(path)` yields exactly the bytes
passed to `put` (a missing buffer being normalized to the zero-length
payload); for the buffering variant this holds for every chunking of the
stored content delivered by the data socket. -/
theorem put_get_roundtrip (s : Store) (p : String) (d : Option Bytes)
    (chunks : List (Option Bytes))
    (hch : jsChunksToBuffer chunks = d.getD []) :
    ftpClientGet (ftpClientPut s p d).1 p = Except.ok (d.getD []) ∧
    jsftpClientGet (jsftpClientPut s p d).1 p chunks =
      Except.ok (d.getD []) := by
  refine ⟨?_, ?_⟩
  · simp [ftpClientGet, ftpClientPut, storeGet, storePut, List.find?]
  · simp [jsftpClientGet, jsftpClientPut, storeGet, storePut, List.find?,
      hch]

/-- Witness for C1 at a one-byte payload delivered in one chunk, and at
the missing (normalized-to-empty) payload. -/
theorem put_get_roundtrip_witness :
    ftpClientGet (ftpClientPut [] "/f" (some [7])).1 "/f" =
      Except.ok ((some ([7] : Bytes)).getD []) ∧
    jsftpClientGet (jsftpClientPut [] "/f" (some [7])).1 "/f"
      [some [7]] = Except.ok ((some ([7] : Bytes)).getD []) :=
  put_get_roundtrip [] "/f" (some [7]) [some [7]] (by decide)

/-- C2 counterexample: with an empty remote directory tree and a server
that refuses nothing, `JsFTPClient.mkdir "/a/b"` rejects and creates
nothing — the single raw `MKD` command does not create the missing
ancestor `/a` — while `FtpClient.mkdir` on the same input creates `/a`
and `/a/b` recursively.  This refutes the claim that *both* engine
variants create directories recursively, failing only when creation is
refused. -/
theorem jsftp_mkdir_not_recursive_cex :
    jsftpClientMkdir true [] "/a/b" = ([], Except.error "mkd failed") ∧
    ftpClientMkdir true [] "/a/b" =
      (["/a", "/a/b"], Except.ok "/a/b") := by decide

/-- C2 (amended): `FtpClient.mkdir` creates the directory together with
all missing ancestors and resolves with the directory path, rejecting
when the server refuses; `JsFTPClient.mkdir` issues a single
non-recursive `MKD`, creating only the named directory and resolving
with its path when the parent exists, and rejecting when the parent is
missing or the server refuses. -/
theorem mkdir_behavior (st : DirSet) (d : String) :
    (ftpClientMkdir true st d = (ancestorsOf d ++ st, Except.ok d)) ∧
    (∀ a ∈ ancestorsOf d, a ∈ (ftpClientMkdir true st d).1) ∧
    (ftpClientMkdir false st d = (st, Except.error "mkdir refused")) ∧
    (dirExists st (parentDirOf d) = true →
      jsftpClientMkdir true st d = (d :: st, Except.ok d)) ∧
    (dirExists st (parentDirOf d) = false →
      jsftpClientMkdir true st d = (st, Except.error "mkd failed")) ∧
    (jsftpClientMkdir false st d = (st, Except.error "mkd failed")) := by
  refine ⟨?_, ?_, ?_, ?_, ?_, ?_⟩
  · simp [ftpClientMkdir, nodeFtpMkdirRecursive]
  · intro a ha
    simp [ftpClientMkdir, nodeFtpMkdirRecursive]
    exact Or.inl ha
  · simp [ftpClientMkdir, nodeFtpMkdirRecursive]
  · intro h; simp [jsftpClientMkdir, jsftpRawMkd, h]
  · intro h; simp [jsftpClientMkdir, jsftpRawMkd, h]
  · simp [jsftpClientMkdir, jsftpRawMkd]

/-- Witness for C2 (amended) at `/a/b` with the parent present
(`st = ["/a"]`) and absent (`st = []`). -/
theorem mkdir_behavior_witness :
    jsftpClientMkdir true ["/a"] "/a/b" =
      ("/a/b" :: ["/a"], Except.ok "/a/b") ∧
    jsftpClientMkdir true [] "/a/b" = ([], Except.error "mkd failed") ∧
    ftpClientMkdir true [] "/a/b" =
      (ancestorsOf "/a/b" ++ [], Except.ok "/a/b") :=
  ⟨(mkdir_behavior ["/a"] "/a/b").2.2.2.1 (by decide),
   (mkdir_behavior [] "/a/b").2.2.2.2.1 (by decide),
   (mkdir_behavior [] "/a/b").1⟩

/-- C3 counterexample: on a fresh instance, `JsFTPClient.connect`
resolves `true` even when the server would fail the connection with an
authentication error — the lazy jsftp client is merely constructed, no
network round-trip is awaited — refuting both "rejects with a
TransportError whenever authentication or the network connection fails"
and "never resolves true without the connection to the target having
been established". -/
theorem jsftp_connect_ignores_failure_cex :
    jsftpClientConnect ⟨none⟩ (ConnectOutcome.failure "auth failed") =
      (⟨some 1⟩, Except.ok true) := by decide

/-- C3 (amended): `FtpClient.connect` rejects on an auth/network failure
and resolves `true` exactly when the server completes the handshake,
storing the connection; `JsFTPClient.connect` constructs its lazy client
and resolves `true` regardless of the server's behaviour, deferring
auth/network failures to later operations; on an already-connected
instance both variants resolve `false` (overwriting the stored
connection with the undefined local `conn`). -/
theorem connect_behavior (srv : ConnectOutcome) (c : Nat) (e : Err) :
    ftpClientConnect ⟨some c⟩ srv = (⟨none⟩, Except.ok false) ∧
    ftpClientConnect ⟨none⟩ ConnectOutcome.ready =
      (⟨some 1⟩, Except.ok true) ∧
    ftpClientConnect ⟨none⟩ (ConnectOutcome.failure e) =
      (⟨none⟩, Except.error e) ∧
    jsftpClientConnect ⟨some c⟩ srv = (⟨none⟩, Except.ok false) ∧
    jsftpClientConnect ⟨none⟩ srv = (⟨some 1⟩, Except.ok true) := by
  refine ⟨rfl, rfl, rfl, rfl, rfl⟩

/-- C8 counterexample: a target with the empty engine selector — whose
normalization is `""`, neither `"ftp"` nor `"jsftp"` — does not make
session creation fail: `createContext` selects the default `FtpClient`
engine and succeeds once `connect` does. -/
theorem empty_engine_not_fatal_cex :
    createContext (some "") (Except.ok ()) = Except.ok EngineKind.ftp ∧
    normalizeString (some "") ≠ "ftp" ∧
    normalizeString (some "") ≠ "jsftp" := by decide

/-- C8 (amended): a selector whose normalization is none of `""`, `"ftp"`
and `"jsftp"` is fatal at session creation — `createContext` rejects
with the `Unknown engine` error, whatever `connect` would do, so no
connection is attempted — while the empty selector defaults to the
`FtpClient` engine. -/
theorem engine_selection (s : Option String) (c : Except Err Unit)
    (h1 : normalizeString s ≠ "") (h2 : normalizeString s ≠ "ftp")
    (h3 : normalizeString s ≠ "jsftp") :
    createContext s c = Except.error "Unknown engine" ∧
    selectEngine (some "") = some EngineKind.ftp := by
  refine ⟨?_, by decide⟩
  simp [createContext, selectEngine, h1, h2, h3]

/-- Witness for C8 (amended) at the unrecognized selector `sftp`, with a
`connect` that would succeed. -/
theorem engine_selection_witness :
    createContext (some "sftp") (Except.ok ()) =
      Except.error "Unknown engine" ∧
    selectEngine (some "") = some EngineKind.ftp :=
  engine_selection (some "sftp") (Except.ok ())
    (by decide) (by decide) (by decide)

/-- C4 counterexample: a file whose relative path cannot be resolved,
processed while the session's cancelled flag is already true, is
reported with a *cancelled* outcome (no error) — the entry cancellation
check at src/src/plugins/ftp.ts:643 runs before path resolution — which
refutes the claim that such a file is reported as an error even when the
session is already cancelled. -/
theorem cancelled_before_resolution_cex :
    (deployFile none "f" [] envUnresolved (fun _ => true)).outcome =
      ⟨"f", true, none⟩ ∧
    (deployFile none "f" [] envUnresolved (fun _ => true)).events =
      [Event.completedHook "f" true none] := by decide

/-- C4 (amended): the session-cancelled check precedes path resolution:
a file processed with the cancelled flag already true yields a cancelled
outcome with no error and no network calls, even when its path could
not be resolved; only when the flag is still false does a resolution
failure yield an error outcome, again with no network calls. -/
theorem cancel_check_precedes_resolution (dir : Option String)
    (file : String) (cache : List String) (env : FileEnv)
    (cancel : Nat → Bool) :
    (cancel 0 = true →
      (deployFile dir file cache env cancel).outcome = ⟨file, true, none⟩ ∧
      hasNetworkCall (deployFile dir file cache env cancel).events =
        false) ∧
    (cancel 0 = false → env.resolved = none →
      (deployFile dir file cache env cancel).outcome =
        ⟨file, false, some "could not resolve relative path"⟩ ∧
      hasNetworkCall (deployFile dir file cache env cancel).events =
        false) := by
  constructor
  · intro h
    simp [deployFile, h, hasNetworkCall]
  · intro h hres
    simp [deployFile, h, hres, hasNetworkCall]

/-- Witness for C4 (amended): the unresolvable file under an
already-cancelled session and under a live session. -/
theorem cancel_check_precedes_resolution_witness :
    ((deployFile none "f" [] envUnresolved (fun _ => true)).outcome =
        ⟨"f", true, none⟩ ∧
      hasNetworkCall
        (deployFile none "f" [] envUnresolved (fun _ => true)).events =
        false) ∧
    ((deployFile none "f" [] envUnresolved (fun _ => false)).outcome =
        ⟨"f", false, some "could not resolve relative path"⟩ ∧
      hasNetworkCall
        (deployFile none "f" [] envUnresolved (fun _ => false)).events =
        false) :=
  ⟨(cancel_check_precedes_resolution none "f" [] envUnresolved
      (fun _ => true)).1 rfl,
   (cancel_check_precedes_resolution none "f" [] envUnresolved
      (fun _ => false)).2 rfl rfl⟩

/-- C6 counterexample: for a file whose parent directory `/x` is not in
the cache, the run's trace places the `onBeforeDeploy` hook (index 0)
strictly before the `cwd` probe (index 1) — the hook fires at
src/src/plugins/ftp.ts:687 before the directory protocol at line 695 —
refuting the claim that the pre-transfer hook is never invoked before
the directory-cache-or-probe-or-create protocol has completed. -/
theorem hook_precedes_dir_protocol_cex :
    (deployFile none "f" [] envAllOk noCancel).events =
      [Event.beforeDeploy "/x" "f", Event.cwdCall "/x",
       Event.putCall "/x/a.txt", Event.completedHook "f" false none] := by
  decide

/-- C6 (amended): whenever the flow passes the entry cancellation check
and path resolution, the pre-transfer hook is the first external event
of the file's run — it fires after the destination paths are computed
but before the directory protocol (any `cwd`/`mkdir`) and before the
later cancellation re-checks and the `put`. -/
theorem hook_fires_before_dir_protocol (dir : Option String)
    (file : String) (cache : List String) (env : FileEnv)
    (cancel : Nat → Bool) (rel : String) (h0 : cancel 0 = false)
    (hres : env.resolved = some rel) :
    (deployFile dir file cache env cancel).events.head? =
      some (Event.beforeDeploy (targetDirOf dir rel) file) := by
  simp only [deployFile, h0, hres]
  repeat' split
  all_goals simp_all

/-- Witness for C6 (amended): the all-succeeding file under a live
session. -/
theorem hook_fires_before_dir_protocol_witness :
    (deployFile none "f" [] envAllOk noCancel).events.head? =
      some (Event.beforeDeploy (targetDirOf none "x/a.txt") "f") :=
  hook_fires_before_dir_protocol none "f" [] envAllOk noCancel
    "x/a.txt" rfl rfl

/-- C7: in both orchestrators the completion hook fires exactly once per
file: every run's trace — whichever terminal branch it takes (success,
error, cancelled, resolution failure) — contains exactly one
`onCompleted` event. -/
theorem completion_hook_exactly_once (dir : Option String) (file : String)
    (cache : List String) (env : FileEnv) (denv : DownloadEnv)
    (cancel : Nat → Bool) :
    countCompleted (deployFile dir file cache env cancel).events = 1 ∧
    countCompleted (downloadFile dir file denv cancel).events = 1 := by
  constructor
  · simp only [deployFile]
    repeat' split
    all_goals simp_all [countCompleted]
  · simp only [downloadFile]
    repeat' split
    all_goals simp_all [countCompleted]

/-- A file whose parent directory is already cached issues no `cwd` and
no `mkdir` call, whatever the cancellation behaviour. -/
theorem deployFile_cached_no_dir_calls (dir : Option String)
    (file : String) (cache : List String) (env : FileEnv)
    (cancel : Nat → Bool) (rel d : String)
    (hres : env.resolved = some rel)
    (hmem : targetDirOf dir rel ∈ cache) :
    countEvent (Event.cwdCall d)
      (deployFile dir file cache env cancel).events = 0 ∧
    countEvent (Event.mkdirCall d)
      (deployFile dir file cache env cancel).events = 0 := by
  simp only [deployFile, hres]
  repeat' split
  all_goals simp_all [countEvent]

/-- A run whose entry cancellation check fires: a single cancelled
completion event, no network calls, cache untouched, done at tick 0. -/
theorem deployFile_entry_cancelled (dir : Option String) (file : String)
    (cache : List String) (env : FileEnv) (cancel : Nat → Bool)
    (h : cancel 0 = true) :
    deployFile dir file cache env cancel =
      { events := [Event.completedHook file true none], cache := cache,
        outcome := ⟨file, true, none⟩, doneAt := 0 } := by
  simp [deployFile, h]

set_option maxHeartbeats 1000000 in
/-- Per-file facts under an arbitrary cancellation flag and a successful
directory step: the cache only grows; each of `cwd` and `mkdir` is
called at most once for any directory; a cached directory is never
probed; and any probed directory either ends up cached or the file
completed with the cancellation flag already raised at its completion
tick. -/
theorem deployFile_dir_spec (dir : Option String) (file : String)
    (cache : List String) (env : FileEnv) (cancel : Nat → Bool)
    (hstep : dirStepOk env) (d : String) :
    (∀ x ∈ cache, x ∈ (deployFile dir file cache env cancel).cache) ∧
    countEvent (Event.cwdCall d)
      (deployFile dir file cache env cancel).events ≤ 1 ∧
    countEvent (Event.mkdirCall d)
      (deployFile dir file cache env cancel).events ≤ 1 ∧
    (d ∈ cache →
      countEvent (Event.cwdCall d)
        (deployFile dir file cache env cancel).events = 0 ∧
      countEvent (Event.mkdirCall d)
        (deployFile dir file cache env cancel).events = 0) ∧
    ((1 ≤ countEvent (Event.cwdCall d)
        (deployFile dir file cache env cancel).events ∨
      1 ≤ countEvent (Event.mkdirCall d)
        (deployFile dir file cache env cancel).events) →
      d ∈ (deployFile dir file cache env cancel).cache ∨
        cancel (deployFile dir file cache env cancel).doneAt = true) := by
  obtain ⟨res, cwdRes, mkdirRes, readRes, putRes⟩ := env
  cases res with
  | none =>
    simp only [deployFile]
    repeat' split
    all_goals simp_all [countEvent]
  | some rel =>
    by_cases hmem : targetDirOf dir rel ∈ cache
    · simp only [deployFile]
      repeat' split
      all_goals simp_all [countEvent]
    · by_cases hd : d = targetDirOf dir rel
      · subst hd
        cases cwdRes with
        | ok =>
          simp only [deployFile]
          repeat' split
          all_goals simp_all [countEvent]
        | errFalsy =>
          simp only [deployFile]
          repeat' split
          all_goals simp_all [countEvent]
        | err e =>
          have hmk : mkdirRes = none := by
            rcases hstep with h | h | h <;> simp_all
          subst hmk
          simp only [deployFile]
          repeat' split
          all_goals simp_all [countEvent]
      · have hd2 : ¬ targetDirOf dir rel = d := fun h => hd h.symm
        cases cwdRes <;> cases mkdirRes <;> cases readRes <;> cases putRes
        all_goals simp only [deployFile]
        all_goals repeat' split
        all_goals simp_all [countEvent]

/-- Once the monotone cancellation flag is raised, the remainder of a
session issues no directory-check calls: every later file exits at its
entry cancellation checkpoint. -/
theorem session_cancelled_no_calls (dir : Option String) (d : String)
    (fs : List (String × FileEnv)) (cache : List String) (t0 : Nat)
    (cancel : Nat → Bool) (hmono : CancelMonotone cancel)
    (hc0 : cancel t0 = true) :
    countEvent (Event.cwdCall d)
      (runSession dir cancel cache fs t0).1 = 0 ∧
    countEvent (Event.mkdirCall d)
      (runSession dir cancel cache fs t0).1 = 0 := by
  induction fs generalizing cache t0 with
  | nil => simp [runSession, countEvent]
  | cons p rest ih =>
    obtain ⟨file, env⟩ := p
    have hr := deployFile_entry_cancelled dir file cache env
      (fun t => cancel (t0 + t)) (by simpa using hc0)
    have hnext : cancel (t0 + 0 + 1) = true :=
      hmono t0 (t0 + 0 + 1) (by omega) hc0
    have hih := ih cache (t0 + 0 + 1) hnext
    simp only [runSession, hr]
    rw [countEvent_append]
    simp only [hr] at hih ⊢
    constructor
    · simpa [countEvent] using hih.1
    · simpa [countEvent] using hih.2

/-- Session-level bound by induction over the batch: under a monotone
cancellation flag and successful directory steps, `cwd` and `mkdir`
each run at most once per directory, and not at all for directories
cached at session start — a file that probed a directory either cached
it, or completed with the flag raised, after which every later file
exits at its entry checkpoint. -/
theorem session_dir_calls_mono (dir : Option String) (d : String)
    (fs : List (String × FileEnv)) (cache : List String) (t0 : Nat)
    (cancel : Nat → Bool) (hmono : CancelMonotone cancel)
    (hstep : ∀ p ∈ fs, dirStepOk p.2) :
    (d ∈ cache →
      countEvent (Event.cwdCall d)
        (runSession dir cancel cache fs t0).1 = 0 ∧
      countEvent (Event.mkdirCall d)
        (runSession dir cancel cache fs t0).1 = 0) ∧
    countEvent (Event.cwdCall d)
      (runSession dir cancel cache fs t0).1 ≤ 1 ∧
    countEvent (Event.mkdirCall d)
      (runSession dir cancel cache fs t0).1 ≤ 1 := by
  induction fs generalizing cache t0 with
  | nil => simp [runSession, countEvent]
  | cons p rest ih =>
    obtain ⟨file, env⟩ := p
    have hstep1 : dirStepOk env := hstep (file, env) (List.mem_cons_self _ _)
    have hstepR : ∀ q ∈ rest, dirStepOk q.2 :=
      fun q hq => hstep q (List.mem_cons_of_mem _ hq)
    have hper := deployFile_dir_spec dir file cache env
      (fun t => cancel (t0 + t)) hstep1 d
    obtain ⟨hcmono, ha, ham, hzero, hins⟩ := hper
    set r := deployFile dir file cache env (fun t => cancel (t0 + t))
      with hr
    have hih := ih r.cache (t0 + r.doneAt + 1) hstepR
    obtain ⟨hihz, hihb, hihbm⟩ := hih
    have hcanc : cancel (t0 + r.doneAt) = true →
        countEvent (Event.cwdCall d)
          (runSession dir cancel r.cache rest (t0 + r.doneAt + 1)).1 = 0 ∧
        countEvent (Event.mkdirCall d)
          (runSession dir cancel r.cache rest (t0 + r.doneAt + 1)).1 = 0 := by
      intro hc
      exact session_cancelled_no_calls dir d rest r.cache
        (t0 + r.doneAt + 1) cancel hmono (hmono _ _ (by omega) hc)
    simp only [runSession, ← hr]
    rw [countEvent_append, countEvent_append]
    refine ⟨?_, ?_, ?_⟩
    · intro hdc
      have h1 := hzero hdc
      have h2 := hihz (hcmono d hdc)
      omega
    · by_cases h1a : 1 ≤ countEvent (Event.cwdCall d) r.events
      · rcases hins (Or.inl h1a) with hrc | hct
        · have := (hihz hrc).1
          omega
        · have := (hcanc (by simpa using hct)).1
          omega
      · omega
    · by_cases h1a : 1 ≤ countEvent (Event.mkdirCall d) r.events
      · rcases hins (Or.inr h1a) with hrc | hct
        · have := (hihz hrc).2
          omega
        · have := (hcanc (by simpa using hct)).2
          omega
      · omega

/-- C5 counterexample: two files sharing the parent directory `/x` in one
uncancelled session, where the first file's `cwd` probe and `mkdir`
fallback both fail: the directory never enters the cache, so the second
file probes `cwd "/x"` again — the session's trace contains two
`cwd "/x"` calls, refuting "cwd and mkdir are executed at most once for
that directory over the whole session (including sequences where a
file's cwd probe fails, its mkdir fails, and a later file shares the
same parent directory)". -/
theorem cwd_repeated_after_failure_cex :
    countEvent (Event.cwdCall "/x")
      (runSession none noCancel []
        [("f1", envDirFail), ("f2", envSameDir)] 0).1 = 2 := by decide

/-- C5 (amended): within one session, under the session's monotone
cancellation flag (once raised, `hasCancelled` never reverts), if every
file's directory step succeeds (its `cwd` probe fulfils, or its `mkdir`
fallback does), `cwd` and `mkdir` each execute at most once per unique
normalized parent directory, and never for a directory already cached
at session start; independently of any cancellation or success
assumption, a file whose parent directory is in the cache incurs zero
directory-check network calls.  (When a file's `cwd` and `mkdir` both
fail, the directory is not cached and a later file with the same parent
repeats the probe.) -/
theorem dir_cache_session_bound (dir : Option String) (d : String)
    (fs : List (String × FileEnv)) (cache : List String) (t0 : Nat)
    (cancel : Nat → Bool) (hmono : CancelMonotone cancel)
    (hstep : ∀ p ∈ fs, dirStepOk p.2) :
    (d ∈ cache →
      countEvent (Event.cwdCall d)
        (runSession dir cancel cache fs t0).1 = 0 ∧
      countEvent (Event.mkdirCall d)
        (runSession dir cancel cache fs t0).1 = 0) ∧
    countEvent (Event.cwdCall d)
      (runSession dir cancel cache fs t0).1 ≤ 1 ∧
    countEvent (Event.mkdirCall d)
      (runSession dir cancel cache fs t0).1 ≤ 1 ∧
    (∀ file env cancel' rel d', env.resolved = some rel →
      targetDirOf dir rel ∈ cache →
      countEvent (Event.cwdCall d')
        (deployFile dir file cache env cancel').events = 0 ∧
      countEvent (Event.mkdirCall d')
        (deployFile dir file cache env cancel').events = 0) := by
  obtain ⟨h1, h2, h3⟩ :=
    session_dir_calls_mono dir d fs cache t0 cancel hmono hstep
  exact ⟨h1, h2, h3,
    fun file env cancel' rel d' hres hmem =>
      deployFile_cached_no_dir_calls dir file cache env cancel' rel d'
        hres hmem⟩

/-- Witness for C5 (amended): a two-file session sharing `/x` under a
monotone cancellation flag raised at tick 3 (mid-session, while the
first file's `put` is in flight): one `cwd` in total, the second file
exiting at its entry checkpoint; and a file processed with `/x` already
cached (zero directory calls). -/
theorem dir_cache_session_bound_witness :
    countEvent (Event.cwdCall "/x")
      (runSession none (fun t => decide (3 ≤ t)) []
        [("f1", envAllOk), ("f2", envSameDir)] 0).1 ≤ 1 ∧
    (countEvent (Event.cwdCall "/x")
        (deployFile none "f3" ["/x"] envSameDir noCancel).events = 0 ∧
      countEvent (Event.mkdirCall "/x")
        (deployFile none "f3" ["/x"] envSameDir noCancel).events = 0) :=
  ⟨(dir_cache_session_bound none "/x"
      [("f1", envAllOk), ("f2", envSameDir)] [] 0
      (fun t => decide (3 ≤ t))
      (by intro s t hst hs; simp only [decide_eq_true_eq] at hs ⊢; omega)
      (by decide)).2.1,
   (dir_cache_session_bound none "/x"
      [("f1", envAllOk), ("f2", envSameDir)] ["/x"] 0
      noCancel (fun _ _ _ h => h) (by decide)).2.2.2
      "f3" envSameDir noCancel "x/b.txt" "/x" rfl (by decide)⟩

/-- C9: both orchestrators read the outcome's `canceled` field from the
session's cancellation flag at the moment the completion hook fires
(tick `doneAt`), not at the start of the file's processing; in
particular a file whose `put` (resp. `get`) succeeds after cancellation
was raised mid-transfer is reported with `canceled = true` and no
error. -/
theorem canceled_read_at_completion (dir : Option String) (file : String)
    (cache : List String) (env : FileEnv) (denv : DownloadEnv)
    (cancel : Nat → Bool) :
    ((deployFile dir file cache env cancel).outcome.canceled =
      cancel (deployFile dir file cache env cancel).doneAt) ∧
    ((downloadFile dir file denv cancel).outcome.canceled =
      cancel (downloadFile dir file denv cancel).doneAt) ∧
    (∀ rel bs, cancel 0 = false → cancel 1 = false → cancel 2 = true →
      env.resolved = some rel → targetDirOf dir rel ∈ cache →
      env.readRes = Except.ok bs → env.putRes = none →
      (deployFile dir file cache env cancel).outcome =
        ⟨file, true, none⟩ ∧
      Event.putCall (targetFileOf dir rel) ∈
        (deployFile dir file cache env cancel).events) ∧
    (∀ rel bs, cancel 0 = false → cancel 1 = true →
      denv.resolved = some rel → denv.getRes = Except.ok bs →
      (downloadFile dir file denv cancel).outcome =
        ⟨file, true, none⟩ ∧
      Event.getCall (targetFileOf dir rel) ∈
        (downloadFile dir file denv cancel).events) := by
  refine ⟨?_, ?_, ?_, ?_⟩
  · simp only [deployFile]
    repeat' split
    all_goals simp_all
  · simp only [downloadFile]
    repeat' split
    all_goals simp_all
  · intro rel bs h0 h1 h2 hres hmem hread hput
    simp [deployFile, h0, h1, h2, hres, hmem, hread, hput]
  · intro rel bs h0 h1 hres hget
    simp [downloadFile, h0, h1, hres, hget]

/-- Witness for C9: an upload whose parent directory is cached and whose
flag rises at tick 2 (after the `put` was issued), and a download whose
flag rises at tick 1 (while the `get` is in flight). -/
theorem canceled_read_at_completion_witness :
    ((deployFile none "f" ["/x"] envAllOk
        (fun t => decide (2 ≤ t))).outcome = ⟨"f", true, none⟩ ∧
      Event.putCall (targetFileOf none "x/a.txt") ∈
        (deployFile none "f" ["/x"] envAllOk
          (fun t => decide (2 ≤ t))).events) ∧
    ((downloadFile none "f" envDl
        (fun t => decide (1 ≤ t))).outcome = ⟨"f", true, none⟩ ∧
      Event.getCall (targetFileOf none "x/a.txt") ∈
        (downloadFile none "f" envDl
          (fun t => decide (1 ≤ t))).events) :=
  ⟨(canceled_read_at_completion none "f" ["/x"] envAllOk envDl
      (fun t => decide (2 ≤ t))).2.2.1 "x/a.txt" [1, 2]
      (by decide) (by decide) (by decide) rfl (by decide) rfl rfl,
   (canceled_read_at_completion none "f" [] envAllOk envDl
      (fun t => decide (1 ≤ t))).2.2.2 "x/a.txt" [9]
      (by decide) (by decide) rfl rfl⟩

/-- C10: `wrapper.destroy` deletes the session's directory cache before
invoking `end()` on the engine: whatever `end()` returns, the cache is
gone afterwards, and a close failure still propagates to the caller —
teardown is not atomic with respect to the cache. -/
theorem destroy_clears_cache_before_end (st : SessionState) (e : Err) :
    wrapperDestroy st (Except.error e) =
      ({ st with cache := none }, Except.error e) ∧
    wrapperDestroy st (Except.ok ()) =
      ({ st with cache := none, connOpen := false }, Except.ok ()) := by
  refine ⟨rfl, rfl⟩

end Theorems

end VsDeployFtp
